import Mathlib

/-!
Verification of the decision-making core of the `AIlearning-gamebot` repository.

The Python source is shallowly embedded: dictionaries keyed by strings or
integers become functions into `Option`, floats become `ℚ` (exact arithmetic),
calls to `random.random()` / `random.choice` become explicit parameters
supplying the drawn values, and a Python `KeyError` on a missing dictionary
key is modelled by an operation returning `none`.
-/

namespace GameBot

/-- A world object, as produced by `game_environment.GameObject`: a `type`
tag plus the duck-typed `properties` dictionary flattened into fields
(`level`/`health` for enemies, `fish_type` for fishing spots,
`resource_type` for resources). -/
structure GameObject where
  type : String
  level : ℤ
  health : ℚ
  fish_type : String
  resource_type : String
deriving DecidableEq

/-- The six behavior states of `learning/state_machine.py`. -/
inductive GState where
  | idle
  | gathering
  | fishing
  | combat
  | exploring
  | healing
deriving DecidableEq

open GState

/-- Embeds `self.states` from `StateMachine.__init__`. -/
def statesList : List GState := [idle, gathering, fishing, combat, exploring, healing]

/-- The initial transition table of `StateMachine.__init__`, rows kept in the
Python dict insertion order. -/
def initTransitions : GState → List (GState × ℚ)
  | idle => [(gathering, 0.4), (fishing, 0.3), (combat, 0.2), (exploring, 0.1)]
  | gathering => [(idle, 0.1), (exploring, 0.2), (combat, 0.1), (gathering, 0.6)]
  | fishing => [(idle, 0.1), (exploring, 0.2), (gathering, 0.1), (fishing, 0.6)]
  | combat => [(idle, 0.2), (exploring, 0.2), (gathering, 0.1), (combat, 0.3), (healing, 0.2)]
  | exploring => [(gathering, 0.4), (fishing, 0.3), (combat, 0.2), (idle, 0.1)]
  | healing => [(idle, 0.3), (exploring, 0.3), (gathering, 0.3), (fishing, 0.1)]

/-- The mutable state of a `StateMachine` instance. -/
structure SMState where
  transitions : GState → List (GState × ℚ)
  state_timers : GState → ℕ
  state_success_rates : GState → ℚ
  consecutive_failures : GState → ℕ

/-- Embeds `StateMachine.__init__`. -/
def initStateMachine : SMState :=
  { transitions := initTransitions
    state_timers := fun _ => 0
    state_success_rates := fun _ => 0.5
    consecutive_failures := fun _ => 0 }

/-- Pointwise update of a per-state table (a Python `dict[state] = value`). -/
def setFun {β : Type} (f : GState → β) (s : GState) (b : β) : GState → β :=
  fun t => if t = s then b else f t

/-- The outcome dictionary passed to `update_transitions`; `success` is read
with `outcome.get('success', False)`, so a missing key means `false`. -/
structure SMOutcome where
  success : Option Bool

/-- The environment snapshot dictionary as read by `StateMachine`:
`environment.get('player_status', {}).get('health', 100)` collapses to an
optional health value, and `environment.get('nearby_objects', [])` to a
list of objects. -/
structure Environment where
  player_health : Option ℚ
  nearby_objects : List GameObject

/-- The health value the state machine reads from a snapshot (default 100). -/
def playerHealth (env : Environment) : ℚ := env.player_health.getD 100

/-- The random draws consumed by one `get_next_state` call: `choiceIdx`
stands for the index drawn by `random.choice` and `randVal` for the result
of `random.random()`. -/
structure SMRandom where
  choiceIdx : ℕ
  randVal : ℚ

/-- Embeds `StateMachine._check_forced_transition`. -/
def check_forced_transition (env : Environment) : Bool :=
  let player_health := playerHealth env
  if player_health < 30 then true
  else
    let dangerous_enemies := env.nearby_objects.filter
      (fun obj => decide (obj.type = "enemy" ∧ obj.level > 5))
    if dangerous_enemies ≠ [] ∧ player_health > 50 then true else false

/-- Embeds `StateMachine._handle_forced_transition`. -/
def handle_forced_transition (env : Environment) : GState :=
  let player_health := playerHealth env
  if player_health < 30 then healing
  else
    let dangerous_enemies := env.nearby_objects.filter
      (fun obj => decide (obj.type = "enemy" ∧ obj.level > 5))
    if dangerous_enemies ≠ [] ∧ player_health > 50 then combat
    else exploring

/-- The cumulative sampling loop at the end of `get_next_state`: walk the
(state, probability) pairs accumulating, returning the first state whose
cumulative probability reaches `rand_val`; `none` when the loop falls
through. -/
def sampleCumulative : List (GState × ℚ) → ℚ → ℚ → Option GState
  | [], _, _ => none
  | (s, p) :: rest, rand_val, cumulative =>
    if rand_val ≤ cumulative + p then some s
    else sampleCumulative rest rand_val (cumulative + p)

/-- Embeds `StateMachine.get_next_state`, returning the chosen state together with
the mutated machine state. -/
def get_next_state (m : SMState) (current_state : GState) (env : Environment)
    (rng : SMRandom) : GState × SMState :=
  let player_health := playerHealth env
  if player_health < 50 ∧ current_state ≠ healing then (healing, m)
  else
    let timers1 := setFun m.state_timers current_state (m.state_timers current_state + 1)
    let m1 : SMState := { m with state_timers := timers1 }
    if check_forced_transition env then (handle_forced_transition env, m1)
    else if m1.consecutive_failures current_state ≥ 3 then
      let m2 : SMState :=
        { m1 with consecutive_failures := setFun m1.consecutive_failures current_state 0 }
      let available_states := statesList.filter (fun s => s ≠ current_state)
      (available_states.getD (rng.choiceIdx % available_states.length) current_state, m2)
    else if m1.state_timers current_state > 3 then
      let transition_probs := m1.transitions current_state
      let adjusted_probs := transition_probs.map
        (fun p => (p.1, p.2 * (1 + m1.state_success_rates p.1)))
      let adjusted_probs2 :=
        if current_state = idle then
          adjusted_probs.map (fun p => if p.1 ≠ idle then (p.1, p.2 * 2.0) else p)
        else adjusted_probs
      let total := (adjusted_probs2.map Prod.snd).sum
      let normed := adjusted_probs2.map (fun p => (p.1, p.2 / total))
      match sampleCumulative normed rng.randVal 0 with
      | some s => (s, { m1 with state_timers := setFun m1.state_timers current_state 0 })
      | none => (current_state, m1)
    else (current_state, m1)

/-- Embeds `StateMachine.update_transitions`. -/
def update_transitions (m : SMState) (state : GState) (outcome : SMOutcome) : SMState :=
  let success := outcome.success.getD false
  let current_rate := m.state_success_rates state
  let rates' := setFun m.state_success_rates state
    (current_rate * 0.9 + (if success then 0.1 else 0))
  let failures' :=
    if success then setFun m.consecutive_failures state 0
    else setFun m.consecutive_failures state (m.consecutive_failures state + 1)
  if success then
    let scaled := (m.transitions state).map
      (fun p => (p.1, p.2 * (if p.1 = state then 1.1 else 0.9)))
    let total := (scaled.map Prod.snd).sum
    let row' := scaled.map (fun p => (p.1, p.2 / total))
    { transitions := setFun m.transitions state row'
      state_timers := m.state_timers
      state_success_rates := rates'
      consecutive_failures := failures' }
  else
    { m with state_success_rates := rates', consecutive_failures := failures' }

/-- The sum of the weights of one transition row. -/
def rowSum (row : List (GState × ℚ)) : ℚ := (row.map Prod.snd).sum

/-- The transition-table invariant: every row has strictly positive weights
and sums exactly to 1. -/
def TransitionInvariant (m : SMState) : Prop :=
  ∀ s : GState, (∀ p ∈ m.transitions s, 0 < p.2) ∧ rowSum (m.transitions s) = 1

/-- Embeds `AIBot.__init__` sets `self.current_state = 'idle'` (src/ai_core.py). -/
def initial_bot_state : GState := idle

/-! ### Combat (src/activities/combat.py) -/

/-- One entry of `CombatManager.combat_patterns`. -/
structure CombatProfile where
  success_rate : ℚ
  avg_damage_taken : ℚ
  avg_time : ℚ
deriving DecidableEq

/-- The profile inserted for a first-seen enemy level
(`{'success_rate': 0.5, 'avg_damage_taken': 20, 'avg_time': 10}`). -/
def defaultCombatProfile : CombatProfile :=
  { success_rate := 0.5, avg_damage_taken := 20, avg_time := 10 }

/-- One entry of `CombatManager.enemy_difficulties`. -/
structure Difficulty where
  risk : ℚ
  reward : ℚ
deriving DecidableEq

/-- Embeds `CombatManager.enemy_difficulties`, a dict with keys 1..5. -/
def enemy_difficulties (level : ℤ) : Option Difficulty :=
  if level = 1 then some { risk := 0.1, reward := 1 }
  else if level = 2 then some { risk := 0.2, reward := 2 }
  else if level = 3 then some { risk := 0.3, reward := 3 }
  else if level = 4 then some { risk := 0.4, reward := 4 }
  else if level = 5 then some { risk := 0.5, reward := 5 }
  else none

/-- Embeds `self.enemy_difficulties.get(level, {'risk': 0.5, 'reward': enemy_level})`. -/
def difficultyFor (level : ℤ) : Difficulty :=
  (enemy_difficulties level).getD { risk := 0.5, reward := (level : ℚ) }

/-- Embeds `self.health_threshold` from `CombatManager.__init__`. -/
def health_threshold : ℚ := 50

/-- The mutable state of a `CombatManager` instance: the per-level profile
dictionary and the global consecutive-failure counter. -/
structure CombatState where
  combat_patterns : ℤ → Option CombatProfile
  consecutive_failures : ℕ

/-- Embeds `CombatManager.__init__`: empty `combat_patterns`, no failures. -/
def initCombatState : CombatState :=
  { combat_patterns := fun _ => none, consecutive_failures := 0 }

/-- Embeds `CombatManager.evaluate_combat_target`, returning the score and the
mutated manager state (it lazily inserts a default profile for an unseen
enemy level when the health check passes). -/
def evaluate_combat_target (st : CombatState) (enemy : GameObject)
    (current_health : ℚ) : ℚ × CombatState :=
  let enemy_level := enemy.level
  if current_health < health_threshold then (-1.0, st)
  else
    let patterns' : ℤ → Option CombatProfile :=
      match st.combat_patterns enemy_level with
      | none => fun l => if l = enemy_level then some defaultCombatProfile
                         else st.combat_patterns l
      | some _ => st.combat_patterns
    let pattern := (patterns' enemy_level).getD defaultCombatProfile
    let difficulty := difficultyFor enemy_level
    let failure_penalty := max 0 ((st.consecutive_failures : ℚ) * 0.2)
    let value := difficulty.reward * pattern.success_rate /
      (1 + pattern.avg_damage_taken * difficulty.risk)
    (max 0 (value - failure_penalty), { st with combat_patterns := patterns' })

/-- The adjusted success chance computed inside `CombatManager.engage_combat`:
`pattern['success_rate'] * (0.8 ** self.consecutive_failures)`, where the
pattern falls back to the default profile for an unseen level. -/
def adjusted_success_rate (st : CombatState) (enemy_level : ℤ) : ℚ :=
  ((st.combat_patterns enemy_level).getD defaultCombatProfile).success_rate *
    (0.8 : ℚ) ^ st.consecutive_failures

/-- The outcome dictionary returned by `CombatManager.engage_combat`. -/
structure CombatOutcome where
  success : Bool
  damage_taken : ℚ
  time_taken : ℚ
  enemy_level : ℤ
  reward : ℚ
deriving DecidableEq

/-- Embeds `CombatManager.engage_combat`; the three `random.random()` draws appear
as the explicit parameters `r1` (success trial), `r2` (damage jitter) and
`r3` (time jitter). -/
def engage_combat (st : CombatState) (enemy : GameObject) (r1 r2 r3 : ℚ) :
    CombatOutcome × CombatState :=
  let enemy_level := enemy.level
  let pattern := (st.combat_patterns enemy_level).getD defaultCombatProfile
  let success := decide (r1 < adjusted_success_rate st enemy_level)
  let damage_taken := pattern.avg_damage_taken * (0.8 + r2 * 0.4)
  let time_taken := pattern.avg_time * (0.9 + r3 * 0.2)
  let failures' := if success then 0 else st.consecutive_failures + 1
  ({ success := success
     damage_taken := damage_taken
     time_taken := time_taken
     enemy_level := enemy_level
     reward := ((enemy_difficulties enemy_level).map Difficulty.reward).getD (enemy_level : ℚ) },
   { st with consecutive_failures := failures' })

/-- Embeds `CombatManager.update_combat_patterns`. -/
def update_combat_patterns (st : CombatState) (enemy_level : ℤ)
    (outcome : CombatOutcome) : CombatState :=
  let withDefault : ℤ → Option CombatProfile :=
    match st.combat_patterns enemy_level with
    | none => fun l => if l = enemy_level then some defaultCombatProfile
                       else st.combat_patterns l
    | some _ => st.combat_patterns
  let pattern := (withDefault enemy_level).getD defaultCombatProfile
  let pattern' : CombatProfile :=
    { success_rate := pattern.success_rate * 0.9 + (if outcome.success then 0.1 else 0)
      avg_damage_taken := pattern.avg_damage_taken * 0.9 + outcome.damage_taken * 0.1
      avg_time := pattern.avg_time * 0.9 + outcome.time_taken * 0.1 }
  { st with combat_patterns :=
      fun l => if l = enemy_level then some pattern' else withDefault l }

/-! ### Fishing (src/activities/fishing.py) -/

/-- One entry of `FishingManager.fishing_patterns`. -/
structure FishProfile where
  success_rate : ℚ
  avg_time : ℚ
deriving DecidableEq

/-- The mutable state of a `FishingManager` instance. -/
structure FishingState where
  fishing_patterns : String → Option FishProfile

/-- Embeds `FishingManager.__init__`: the three built-in fish types. -/
def initFishingState : FishingState :=
  { fishing_patterns := fun t =>
      if t = "common" then some { success_rate := 0.7, avg_time := 5 }
      else if t = "rare" then some { success_rate := 0.4, avg_time := 8 }
      else if t = "exotic" then some { success_rate := 0.2, avg_time := 12 }
      else none }

/-- Embeds `FishingManager.fish_values`, never mutated. -/
def fish_values (t : String) : Option ℚ :=
  if t = "common" then some 1
  else if t = "rare" then some 3
  else if t = "exotic" then some 5
  else none

/-- Embeds `FishingManager.evaluate_fishing_spot`. Both
`self.fish_values[fish_type]` and `self.fishing_patterns[fish_type]` are
direct dictionary lookups, so an unknown fish type raises `KeyError`,
modelled here as `none`. -/
def evaluate_fishing_spot (st : FishingState) (fishing_spot : GameObject) : Option ℚ :=
  let fish_type := fishing_spot.fish_type
  match fish_values fish_type, st.fishing_patterns fish_type with
  | some base_value, some pattern_data =>
      some (base_value * pattern_data.success_rate / pattern_data.avg_time)
  | _, _ => none

/-- The outcome dictionary returned by `FishingManager.fish`. -/
structure FishOutcome where
  success : Bool
  time_taken : ℚ
  fish_type : String
  amount : ℕ
deriving DecidableEq

/-- Embeds `FishingManager.fish`; `self.fishing_patterns[fish_type]` is a direct
lookup, so an unknown fish type raises `KeyError` (`none` here). The two
`random.random()` draws are the parameters `r1` and `r2`. -/
def fish_attempt (st : FishingState) (fishing_spot : GameObject) (r1 r2 : ℚ) :
    Option FishOutcome :=
  let fish_type := fishing_spot.fish_type
  (st.fishing_patterns fish_type).map (fun pattern =>
    let success := decide (r1 < pattern.success_rate)
    { success := success
      time_taken := pattern.avg_time * (0.9 + r2 * 0.2)
      fish_type := fish_type
      amount := if success then 1 else 0 })

/-- Embeds `FishingManager.update_fishing_patterns`: guarded by
`if fish_type in self.fishing_patterns`, so an unknown key is a no-op. -/
def update_fishing_patterns (st : FishingState) (fish_type : String)
    (outcome : FishOutcome) : FishingState :=
  match st.fishing_patterns fish_type with
  | none => st
  | some pattern =>
    { fishing_patterns := fun t =>
        if t = fish_type then
          some { success_rate := pattern.success_rate * 0.9 +
                   (if outcome.success then 0.1 else 0)
                 avg_time := pattern.avg_time * 0.9 + outcome.time_taken * 0.1 }
        else st.fishing_patterns t }

/-! ### Resource gathering (src/activities/resource_gathering.py) -/

/-- One entry of `ResourceGatherer.gathering_patterns`. -/
structure GatherProfile where
  success_rate : ℚ
  avg_time : ℚ
deriving DecidableEq

/-- The mutable state of a `ResourceGatherer` instance. -/
structure GatheringState where
  gathering_patterns : String → Option GatherProfile

/-- Embeds `ResourceGatherer.__init__`. -/
def initGatheringState : GatheringState :=
  { gathering_patterns := fun t =>
      if t = "wood" then some { success_rate := 0.8, avg_time := 3 }
      else if t = "ore" then some { success_rate := 0.7, avg_time := 4 }
      else if t = "herbs" then some { success_rate := 0.9, avg_time := 2 }
      else none }

/-- Embeds `ResourceGatherer.resource_values`, never mutated. -/
def resource_values (t : String) : Option ℚ :=
  if t = "wood" then some 1
  else if t = "ore" then some 2
  else if t = "herbs" then some 3
  else none

/-- Embeds `ResourceGatherer.evaluate_resource`. Direct dictionary lookups: an
unknown resource type raises `KeyError` (`none` here). -/
def evaluate_resource (st : GatheringState) (resource_obj : GameObject) : Option ℚ :=
  let resource_type := resource_obj.resource_type
  match resource_values resource_type, st.gathering_patterns resource_type with
  | some base_value, some pattern_data =>
      some (base_value * (pattern_data.success_rate / pattern_data.avg_time))
  | _, _ => none

/-- The outcome dictionary returned by `ResourceGatherer.gather_resource`. -/
structure GatherOutcome where
  success : Bool
  time_taken : ℚ
  amount : ℕ
  resource_type : String
deriving DecidableEq

/-- Embeds `ResourceGatherer.gather_resource`; direct lookup on
`self.gathering_patterns[resource_type]`, so an unknown key raises
(`none`). `r1`, `r2` are the two `random.random()` draws and `amt` the
`random.randint(1, 3)` draw. -/
def gather_resource (st : GatheringState) (resource_obj : GameObject)
    (r1 r2 : ℚ) (amt : ℕ) : Option GatherOutcome :=
  let resource_type := resource_obj.resource_type
  (st.gathering_patterns resource_type).map (fun pattern =>
    let success := decide (r1 < pattern.success_rate)
    { success := success
      time_taken := pattern.avg_time * (0.8 + r2 * 0.4)
      amount := if success then 1 + amt % 3 else 0
      resource_type := resource_type })

/-- Embeds `ResourceGatherer.update_gathering_patterns`: guarded by
`if resource_type in self.gathering_patterns`, so an unknown key is a
no-op. -/
def update_gathering_patterns (st : GatheringState) (resource_type : String)
    (outcome : GatherOutcome) : GatheringState :=
  match st.gathering_patterns resource_type with
  | none => st
  | some pattern =>
    { gathering_patterns := fun t =>
        if t = resource_type then
          some { success_rate := pattern.success_rate * 0.9 +
                   (if outcome.success then 0.1 else 0)
                 avg_time := pattern.avg_time * 0.9 + outcome.time_taken * 0.1 }
        else st.gathering_patterns t }

/-! ### Pattern recognizer (src/learning/pattern_recognition.py) -/

/-- An observation snapshot as consumed by `PatternRecognizer`. -/
structure Observation where
  player_position : ℚ × ℚ
  nearby_objects : List GameObject
deriving DecidableEq

/-- Embeds `PatternRecognizer._extract_features`: `[x, y, resource count,
fishing-spot count, enemy count]`. In this typed embedding the
`try/except` cannot fire (it only guards malformed duck-typed data), so
extraction always succeeds. -/
def extract_features (obs : Observation) : List ℚ :=
  [obs.player_position.1, obs.player_position.2,
   (obs.nearby_objects.filter (fun o => o.type = "resource")).length,
   (obs.nearby_objects.filter (fun o => o.type = "fishing_spot")).length,
   (obs.nearby_objects.filter (fun o => o.type = "enemy")).length]

/-- The mutable state of a `PatternRecognizer` instance that
`_update_patterns` touches: the observation buffer and the cluster map
`self.patterns` (a dict from cluster label to list of observations,
defaulting to the empty list). -/
structure RecognizerState where
  observations : List Observation
  patterns : ℕ → List Observation

/-- Embeds `PatternRecognizer.__init__`: empty buffer, empty cluster map. -/
def initRecognizerState : RecognizerState :=
  { observations := [], patterns := fun _ => [] }

/-- The bucket-filling loop of `_update_patterns`:
`for i, cluster in enumerate(clusters): self.patterns[cluster].append(self.observations[i])`
(creating the bucket on first use). -/
def fillBuckets (pairs : List (ℕ × Observation)) (pats : ℕ → List Observation) :
    ℕ → List Observation :=
  pairs.foldl (fun acc p => fun k => if k = p.1 then acc k ++ [p.2] else acc k) pats

/-- Embeds `PatternRecognizer._update_patterns`. The k-means labelling
(`self.kmeans.fit_predict` on the standardized feature matrix) is an
external sklearn call; its output is the parameter `labels`, one label per
buffered observation. With fewer than 50 buffered observations the method
returns immediately. -/
def update_patterns_pass (labels : List ℕ) (st : RecognizerState) : RecognizerState :=
  if st.observations.length < 50 then st
  else { st with patterns := fillBuckets (labels.zip st.observations) st.patterns }

/-! ### Iterated EMA updates -/

/-- Iterates `n` applications of the success branch of the shared EMA learning rule
`success_rate ← success_rate * 0.9 + 0.1`. -/
def succIter : ℕ → ℚ → ℚ
  | 0, x => x
  | n + 1, x => succIter n x * 0.9 + 0.1

/-- Iterates `n` consecutive `update_fishing_patterns` calls with one fixed outcome. -/
def iterate_fishing_updates (o : FishOutcome) : ℕ → FishingState → String → FishingState
  | 0, st, _ => st
  | n + 1, st, t => iterate_fishing_updates o n (update_fishing_patterns st t o) t

/-! ### Concrete inputs used to witness the theorems below -/

/-- A fishing spot of an unknown fish type. -/
def unknownFishSpot : GameObject :=
  { type := "fishing_spot", level := 0, health := 0, fish_type := "unknown",
    resource_type := "" }

/-- A fishing spot of the built-in `common` fish type. -/
def commonFishSpot : GameObject :=
  { type := "fishing_spot", level := 0, health := 0, fish_type := "common",
    resource_type := "" }

/-- A resource object of an unknown resource type. -/
def unknownResourceObj : GameObject :=
  { type := "resource", level := 0, health := 0, fish_type := "",
    resource_type := "crystal" }

/-- A wood resource object. -/
def woodResourceObj : GameObject :=
  { type := "resource", level := 0, health := 0, fish_type := "",
    resource_type := "wood" }

/-- An enemy of level 7 (outside the `enemy_difficulties` table). -/
def enemyLevel7 : GameObject :=
  { type := "enemy", level := 7, health := 100, fish_type := "", resource_type := "" }

/-- An enemy of level 3. -/
def enemyLevel3 : GameObject :=
  { type := "enemy", level := 3, health := 100, fish_type := "", resource_type := "" }

/-- A fishing-manager state whose `common` profile has `avg_time = 1`
(success rate unchanged), as the EMA rule produces when outcomes report
short catch times. -/
def fishStateFast : FishingState :=
  { fishing_patterns := fun t =>
      if t = "common" then some { success_rate := 0.7, avg_time := 1 } else none }

/-- A successful fishing outcome. -/
def fishSuccessOutcome : FishOutcome :=
  { success := true, time_taken := 5, fish_type := "common", amount := 1 }

/-- A successful gathering outcome. -/
def gatherSuccessOutcome : GatherOutcome :=
  { success := true, time_taken := 3, amount := 2, resource_type := "wood" }

/-- A successful combat outcome. -/
def combatSuccessOutcome : CombatOutcome :=
  { success := true, damage_taken := 15, time_taken := 9, enemy_level := 3, reward := 3 }

/-- A failed-action outcome for `update_transitions`. -/
def failOutcome : SMOutcome := { success := some false }

/-- A successful-action outcome for `update_transitions`. -/
def succOutcome : SMOutcome := { success := some true }

/-- An environment snapshot with healthy player (health 80) and nothing nearby. -/
def env80 : Environment := { player_health := some 80, nearby_objects := [] }

/-- An environment snapshot with a badly hurt player (health 20). -/
def env20 : Environment := { player_health := some 20, nearby_objects := [] }

/-- The state machine after three consecutive failure updates for
`gathering`. -/
def machineAfterThreeFailures : SMState :=
  update_transitions
    (update_transitions (update_transitions initStateMachine gathering failOutcome)
      gathering failOutcome)
    gathering failOutcome

/-- An observation at position (1, 1). -/
def obsA : Observation := { player_position := (1, 1), nearby_objects := [] }

/-- An observation at position (0, 0). -/
def obsB : Observation := { player_position := (0, 0), nearby_objects := [] }

/-- A recognizer state holding a bucket produced by a previous clustering
pass (`obsA` in cluster 0) and a full buffer of 50 fresh observations. -/
def priorRecognizerState : RecognizerState :=
  { observations := List.replicate 50 obsB
    patterns := fun k => if k = 0 then [obsA] else [] }

/-- A recognizer state with a full buffer of 50 observations and an empty
cluster map. -/
def freshRecognizerState : RecognizerState :=
  { observations := List.replicate 50 obsB, patterns := fun _ => [] }

/-! ## Theorems -/

/-- C2: for every enemy object and every combat profile state,
`evaluate_combat_target` returns exactly `-1.0` whenever the
caller-supplied current health is strictly below 50, regardless of the
enemy's level or the stored profile statistics. -/
theorem evaluate_combat_low_health_sentinel (st : CombatState) (enemy : GameObject)
    (current_health : ℚ) (h : current_health < 50) :
    (evaluate_combat_target st enemy current_health).1 = -1.0 := by
  unfold evaluate_combat_target
  rw [if_pos (by simpa [health_threshold] using h)]

/-- Witness for C2: an enemy of level 3 against default state at health 20
scores exactly −1. -/
theorem evaluate_combat_low_health_sentinel_witness :
    (20 : ℚ) < 50 ∧ (evaluate_combat_target initCombatState enemyLevel3 20).1 = -1.0 :=
  ⟨by norm_num,
   evaluate_combat_low_health_sentinel initCombatState enemyLevel3 20 (by norm_num)⟩

/-- C7: the controller's initial state is `idle`, and from every current
state other than `healing`, `get_next_state` on a snapshot whose player
health is below 50 returns `healing` and leaves the machine state — in
particular the current state's dwell timer — untouched. -/
theorem initial_idle_and_low_health_forces_healing :
    initial_bot_state = idle ∧
    ∀ (m : SMState) (current_state : GState) (env : Environment) (rng : SMRandom),
      playerHealth env < 50 → current_state ≠ healing →
      get_next_state m current_state env rng = (healing, m) := by
  refine ⟨rfl, fun m current_state env rng h1 h2 => ?_⟩
  unfold get_next_state
  rw [if_pos ⟨h1, h2⟩]

/-- Witness for C7: from `idle` with health 20 the next state is `healing`
with the machine untouched. -/
theorem initial_idle_and_low_health_forces_healing_witness :
    get_next_state initStateMachine idle env20 ⟨0, 0⟩ = (healing, initStateMachine) :=
  initial_idle_and_low_health_forces_healing.2 initStateMachine idle env20 ⟨0, 0⟩
    (by norm_num [playerHealth, env20]) (by simp)

/-- C10: `engage_combat` never modifies the per-subtype profile table
`combat_patterns` — it does not insert a default profile for an unseen
enemy level and does not change existing profiles; the resulting manager
state differs from the input state at most in the global
`consecutive_failures` counter. -/
theorem engage_combat_preserves_patterns (st : CombatState) (enemy : GameObject)
    (r1 r2 r3 : ℚ) :
    ((engage_combat st enemy r1 r2 r3).2).combat_patterns = st.combat_patterns ∧
    (engage_combat st enemy r1 r2 r3).2 =
      { combat_patterns := st.combat_patterns
        consecutive_failures := ((engage_combat st enemy r1 r2 r3).2).consecutive_failures } :=
  ⟨rfl, rfl⟩

/-- Counterexample to C3: evaluating a fishing spot whose fish type is not
a key of the profile dictionaries fails the call (`self.fish_values[fish_type]`
raises `KeyError`, modelled as `none`) instead of falling back to a default
profile. -/
theorem fishing_evaluate_unknown_key_fails :
    evaluate_fishing_spot initFishingState unknownFishSpot = none := by
  rfl

/-- C3 amended: the combat model never fails on an unknown enemy level
(`engage_combat` falls back to the default profile and
`evaluate_combat_target` lazily inserts it), and the fishing/gathering
`update` operations silently ignore unknown subtype keys; but the
fishing and gathering `evaluate`/`attempt` operations fail (raise
`KeyError`) on an unknown subtype key. -/
theorem unknown_key_fallback_behaviour :
    (∀ (st : CombatState) (enemy : GameObject) (r1 r2 r3 : ℚ),
      st.combat_patterns enemy.level = none →
      (engage_combat st enemy r1 r2 r3).1.success
        = decide (r1 < defaultCombatProfile.success_rate *
            (0.8 : ℚ) ^ st.consecutive_failures)) ∧
    (∀ (st : CombatState) (enemy : GameObject) (current_health : ℚ),
      ¬ current_health < health_threshold →
      st.combat_patterns enemy.level = none →
      ((evaluate_combat_target st enemy current_health).2).combat_patterns enemy.level
        = some defaultCombatProfile) ∧
    (∀ (st : FishingState) (spot : GameObject),
      st.fishing_patterns spot.fish_type = none →
      evaluate_fishing_spot st spot = none ∧
      ∀ r1 r2 : ℚ, fish_attempt st spot r1 r2 = none) ∧
    (∀ (st : FishingState) (t : String) (o : FishOutcome),
      st.fishing_patterns t = none → update_fishing_patterns st t o = st) ∧
    (∀ (st : GatheringState) (obj : GameObject),
      st.gathering_patterns obj.resource_type = none →
      evaluate_resource st obj = none ∧
      ∀ (r1 r2 : ℚ) (amt : ℕ), gather_resource st obj r1 r2 amt = none) ∧
    (∀ (st : GatheringState) (t : String) (o : GatherOutcome),
      st.gathering_patterns t = none → update_gathering_patterns st t o = st) := by
  refine ⟨?_, ?_, ?_, ?_, ?_, ?_⟩
  · intro st enemy r1 r2 r3 h
    simp [engage_combat, adjusted_success_rate, h]
  · intro st enemy current_health hch h
    unfold evaluate_combat_target
    rw [if_neg hch]
    simp [h]
  · intro st spot h
    refine ⟨?_, fun r1 r2 => ?_⟩
    · unfold evaluate_fishing_spot
      cases hv : fish_values spot.fish_type <;> simp [h, hv]
    · simp [fish_attempt, h]
  · intro st t o h
    simp [update_fishing_patterns, h]
  · intro st obj h
    refine ⟨?_, fun r1 r2 amt => ?_⟩
    · unfold evaluate_resource
      cases hv : resource_values obj.resource_type <;> simp [h, hv]
    · simp [gather_resource, h]
  · intro st t o h
    simp [update_gathering_patterns, h]

/-- Witness for the amended C3, at concrete unknown keys: enemy level 7,
fish type "unknown", resource type "crystal". -/
theorem unknown_key_fallback_behaviour_witness :
    (engage_combat initCombatState enemyLevel7 0.3 0 0).1.success
      = decide ((0.3 : ℚ) < defaultCombatProfile.success_rate * (0.8 : ℚ) ^ 0) ∧
    ((evaluate_combat_target initCombatState enemyLevel7 100).2).combat_patterns
        enemyLevel7.level = some defaultCombatProfile ∧
    evaluate_fishing_spot initFishingState unknownFishSpot = none ∧
    update_fishing_patterns initFishingState "unknown" fishSuccessOutcome
      = initFishingState ∧
    evaluate_resource initGatheringState unknownResourceObj = none ∧
    update_gathering_patterns initGatheringState "crystal" gatherSuccessOutcome
      = initGatheringState :=
  ⟨unknown_key_fallback_behaviour.1 initCombatState enemyLevel7 0.3 0 0 rfl,
   unknown_key_fallback_behaviour.2.1 initCombatState enemyLevel7 100
     (by norm_num [health_threshold]) rfl,
   (unknown_key_fallback_behaviour.2.2.1 initFishingState unknownFishSpot rfl).1,
   unknown_key_fallback_behaviour.2.2.2.1 initFishingState "unknown"
     fishSuccessOutcome rfl,
   (unknown_key_fallback_behaviour.2.2.2.2.1 initGatheringState unknownResourceObj
     rfl).1,
   unknown_key_fallback_behaviour.2.2.2.2.2 initGatheringState "crystal"
     gatherSuccessOutcome rfl⟩

/-- The score `evaluate_combat_target` returns above the health threshold:
the reward/risk ratio minus the consecutive-failure penalty, floored at 0. -/
theorem evaluate_combat_target_formula (st : CombatState) (enemy : GameObject)
    (current_health : ℚ) (hch : ¬ current_health < health_threshold) :
    (evaluate_combat_target st enemy current_health).1 =
      max 0 ((difficultyFor enemy.level).reward *
          ((st.combat_patterns enemy.level).getD defaultCombatProfile).success_rate /
          (1 + ((st.combat_patterns enemy.level).getD
              defaultCombatProfile).avg_damage_taken * (difficultyFor enemy.level).risk) -
        max 0 ((st.consecutive_failures : ℚ) * 0.2)) := by
  unfold evaluate_combat_target
  rw [if_neg hch]
  cases hpat : st.combat_patterns enemy.level <;> simp [hpat]

/-- The static difficulty constants are nonnegative for any level ≥ 1. -/
theorem difficultyFor_nonneg (level : ℤ) (h : 1 ≤ level) :
    0 ≤ (difficultyFor level).risk ∧ 0 ≤ (difficultyFor level).reward := by
  unfold difficultyFor enemy_difficulties
  split_ifs <;> simp only [Option.getD_some, Option.getD_none] <;>
    refine ⟨by norm_num, ?_⟩ <;> try norm_num
  exact_mod_cast le_trans zero_le_one h

/-- Counterexample to C4: the claimed shape
`reward(subtype) * success_rate / (1 + avg_cost * risk(subtype))` does not
describe the fishing evaluation. `evaluate_fishing_spot` divides by the
profile's average time directly, so no static per-subtype `risk` constant
can reproduce its scores for the `common` fish type at two profile states
(the initial `avg_time = 5` and a later `avg_time = 1`). -/
theorem evaluate_score_formula_counterexample :
    ¬ ∃ risk : ℚ,
      evaluate_fishing_spot initFishingState commonFishSpot
          = some (1 * 0.7 / (1 + 5 * risk)) ∧
      evaluate_fishing_spot fishStateFast commonFishSpot
          = some (1 * 0.7 / (1 + 1 * risk)) := by
  rintro ⟨r, h1, h2⟩
  have e1 : evaluate_fishing_spot initFishingState commonFishSpot
      = some ((7 : ℚ) / 50) := by
    norm_num [evaluate_fishing_spot, initFishingState, commonFishSpot, fish_values]
  have e2 : evaluate_fishing_spot fishStateFast commonFishSpot
      = some ((7 : ℚ) / 10) := by
    norm_num [evaluate_fishing_spot, fishStateFast, commonFishSpot, fish_values]
  rw [e1] at h1
  rw [e2] at h2
  have h1' := Option.some.inj h1
  have h2' := Option.some.inj h2
  by_cases hr : (1 : ℚ) + 1 * r = 0
  · rw [hr, div_zero] at h2'
    norm_num at h2'
  · have hmul : (1 : ℚ) * 0.7 = 7 / 10 * (1 + 1 * r) := (div_eq_iff hr).mp h2'.symm
    have hr0 : r = 0 := by nlinarith [hmul]
    rw [hr0] at h1'
    norm_num at h1'

/-- C4 amended: only combat computes
`reward(level) * success_rate / (1 + avg_damage_taken * risk(level))`
(exactly so when there are no consecutive failures and the health check
passes; in general the failure penalty is subtracted and the score floored
at 0). Fishing and gathering instead compute
`reward(subtype) * success_rate / avg_time`, with no risk constant. -/
theorem evaluate_score_formulas :
    (∀ (st : CombatState) (enemy : GameObject) (current_health : ℚ),
      ¬ current_health < health_threshold →
      st.consecutive_failures = 0 →
      1 ≤ enemy.level →
      0 ≤ ((st.combat_patterns enemy.level).getD defaultCombatProfile).success_rate →
      0 ≤ ((st.combat_patterns enemy.level).getD defaultCombatProfile).avg_damage_taken →
      (evaluate_combat_target st enemy current_health).1 =
        (difficultyFor enemy.level).reward *
          ((st.combat_patterns enemy.level).getD defaultCombatProfile).success_rate /
          (1 + ((st.combat_patterns enemy.level).getD
              defaultCombatProfile).avg_damage_taken * (difficultyFor enemy.level).risk)) ∧
    (∀ (st : FishingState) (spot : GameObject) (v : ℚ) (p : FishProfile),
      fish_values spot.fish_type = some v →
      st.fishing_patterns spot.fish_type = some p →
      evaluate_fishing_spot st spot = some (v * p.success_rate / p.avg_time)) ∧
    (∀ (st : GatheringState) (obj : GameObject) (v : ℚ) (p : GatherProfile),
      resource_values obj.resource_type = some v →
      st.gathering_patterns obj.resource_type = some p →
      evaluate_resource st obj = some (v * (p.success_rate / p.avg_time))) := by
  refine ⟨?_, ?_, ?_⟩
  · intro st enemy current_health hch hcf hlev hsr hadt
    rw [evaluate_combat_target_formula st enemy current_health hch, hcf]
    have hd := difficultyFor_nonneg enemy.level hlev
    have hden : (0 : ℚ) ≤ 1 + ((st.combat_patterns enemy.level).getD
        defaultCombatProfile).avg_damage_taken * (difficultyFor enemy.level).risk := by
      have := mul_nonneg hadt hd.1
      linarith
    have hval : (0 : ℚ) ≤ (difficultyFor enemy.level).reward *
        ((st.combat_patterns enemy.level).getD defaultCombatProfile).success_rate /
        (1 + ((st.combat_patterns enemy.level).getD
            defaultCombatProfile).avg_damage_taken * (difficultyFor enemy.level).risk) :=
      div_nonneg (mul_nonneg hd.2 hsr) hden
    simp only [Nat.cast_zero, zero_mul, max_self, sub_zero]
    norm_num
    exact hval
  · intro st spot v p hv hp
    simp [evaluate_fishing_spot, hv, hp]
  · intro st obj v p hv hp
    simp [evaluate_resource, hv, hp]

/-- Witness for the amended C4 at concrete inputs: a level-3 enemy against
the freshly inserted default profile, the initial `common` fishing profile,
and the initial `wood` gathering profile. -/
theorem evaluate_score_formulas_witness :
    (evaluate_combat_target initCombatState enemyLevel3 100).1 =
      (difficultyFor 3).reward * defaultCombatProfile.success_rate /
        (1 + defaultCombatProfile.avg_damage_taken * (difficultyFor 3).risk) ∧
    evaluate_fishing_spot initFishingState commonFishSpot
      = some (1 * (0.7 : ℚ) / 5) ∧
    evaluate_resource initGatheringState woodResourceObj
      = some (1 * ((0.8 : ℚ) / 3)) :=
  ⟨evaluate_score_formulas.1 initCombatState enemyLevel3 100
      (by norm_num [health_threshold]) rfl (by norm_num [enemyLevel3])
      (by norm_num [initCombatState, defaultCombatProfile])
      (by norm_num [initCombatState, defaultCombatProfile]),
   evaluate_score_formulas.2.1 initFishingState commonFishSpot 1
      { success_rate := 0.7, avg_time := 5 } rfl rfl,
   evaluate_score_formulas.2.2 initGatheringState woodResourceObj 1
      { success_rate := 0.8, avg_time := 3 } rfl rfl⟩

/-- The EMA success branch commutes with its own iteration. -/
theorem succIter_step (n : ℕ) (x : ℚ) :
    succIter n (x * 0.9 + 0.1) = succIter n x * 0.9 + 0.1 := by
  induction n generalizing x with
  | zero => rfl
  | succ n ih => simp only [succIter, ih]

/-- Distance to 1 after `n` successful EMA updates: a geometric decay. -/
theorem one_sub_succIter (n : ℕ) (x : ℚ) :
    1 - succIter n x = (0.9 : ℚ) ^ n * (1 - x) := by
  induction n with
  | zero => simp [succIter]
  | succ n ih =>
    simp only [succIter, pow_succ]
    nlinarith [ih]

/-- One successful `update_fishing_patterns` call maps the stored success
rate through the EMA success branch. -/
theorem update_fishing_success_rate (st : FishingState) (t : String)
    (o : FishOutcome) (p : FishProfile) (ho : o.success = true)
    (hp : st.fishing_patterns t = some p) :
    (update_fishing_patterns st t o).fishing_patterns t
      = some { success_rate := p.success_rate * 0.9 + 0.1
               avg_time := p.avg_time * 0.9 + o.time_taken * 0.1 } := by
  simp [update_fishing_patterns, hp, ho]

/-- C5: for every activity subtype and every starting success rate in
[0, 1), `n` consecutive successful updates yield the success rate
`succIter n` of the start (shown for the iterated fishing update and for
single combat/gathering updates, all of which apply
`success_rate ← success_rate * 0.9 + 0.1`), and that sequence is strictly
increasing while below 1, stays below 1, and converges to 1. -/
theorem ema_success_rate_convergence :
    (∀ (st : FishingState) (t : String) (o : FishOutcome) (p : FishProfile),
      o.success = true → st.fishing_patterns t = some p →
      ∀ n : ℕ, ∃ q : FishProfile,
        (iterate_fishing_updates o n st t).fishing_patterns t = some q ∧
        q.success_rate = succIter n p.success_rate) ∧
    (∀ (st : CombatState) (level : ℤ) (o : CombatOutcome) (p : CombatProfile),
      o.success = true → st.combat_patterns level = some p →
      ∃ q : CombatProfile,
        (update_combat_patterns st level o).combat_patterns level = some q ∧
        q.success_rate = p.success_rate * 0.9 + 0.1) ∧
    (∀ (st : GatheringState) (t : String) (o : GatherOutcome) (p : GatherProfile),
      o.success = true → st.gathering_patterns t = some p →
      ∃ q : GatherProfile,
        (update_gathering_patterns st t o).gathering_patterns t = some q ∧
        q.success_rate = p.success_rate * 0.9 + 0.1) ∧
    (∀ x : ℚ, 0 ≤ x → x < 1 →
      (∀ n : ℕ, succIter n x < succIter (n + 1) x) ∧
      (∀ n : ℕ, succIter n x < 1) ∧
      (∀ ε : ℚ, 0 < ε → ∃ N : ℕ, 1 - succIter N x < ε)) := by
  refine ⟨?_, ?_, ?_, ?_⟩
  · intro st t o p ho hp n
    induction n generalizing st p with
    | zero => exact ⟨p, hp, rfl⟩
    | succ n ih =>
      obtain ⟨q, hq, hqs⟩ := ih (update_fishing_patterns st t o)
        { success_rate := p.success_rate * 0.9 + 0.1
          avg_time := p.avg_time * 0.9 + o.time_taken * 0.1 }
        (update_fishing_success_rate st t o p ho hp)
      refine ⟨q, hq, ?_⟩
      rw [hqs]
      exact succIter_step n p.success_rate
  · intro st level o p ho hp
    refine ⟨{ success_rate := p.success_rate * 0.9 + (if o.success then 0.1 else 0)
              avg_damage_taken := p.avg_damage_taken * 0.9 + o.damage_taken * 0.1
              avg_time := p.avg_time * 0.9 + o.time_taken * 0.1 }, ?_, ?_⟩
    · simp [update_combat_patterns, hp]
    · simp [ho]
  · intro st t o p ho hp
    refine ⟨{ success_rate := p.success_rate * 0.9 + (if o.success then 0.1 else 0)
              avg_time := p.avg_time * 0.9 + o.time_taken * 0.1 }, ?_, ?_⟩
    · simp [update_gathering_patterns, hp]
    · simp [ho]
  · intro x hx0 hx1
    have hgap : ∀ n : ℕ, 1 - succIter n x = (0.9 : ℚ) ^ n * (1 - x) := fun n =>
      one_sub_succIter n x
    have hpow : ∀ n : ℕ, (0 : ℚ) < (0.9 : ℚ) ^ n := fun n => by positivity
    refine ⟨fun n => ?_, fun n => ?_, fun ε hε => ?_⟩
    · have h1 := hgap n
      have h2 := hgap (n + 1)
      have hp1 := hpow n
      have : (0.9 : ℚ) ^ (n + 1) < (0.9 : ℚ) ^ n :=
        pow_lt_pow_right_of_lt_one₀ (by norm_num) (by norm_num) (Nat.lt_succ_self n)
      nlinarith
    · have h1 := hgap n
      have hp1 := hpow n
      nlinarith
    · obtain ⟨N, hN⟩ := exists_pow_lt_of_lt_one
        (div_pos hε (by linarith : (0 : ℚ) < 1 - x)) (by norm_num : (0.9 : ℚ) < 1)
      refine ⟨N, ?_⟩
      rw [hgap N]
      calc (0.9 : ℚ) ^ N * (1 - x) < ε / (1 - x) * (1 - x) := by
            exact mul_lt_mul_of_pos_right hN (by linarith)
        _ = ε := div_mul_cancel₀ ε (by linarith)

/-- Witness for C5: starting from the initial `common` fishing profile
(success rate 0.7, which lies in [0, 1)). -/
theorem ema_success_rate_convergence_witness :
    (∃ q : FishProfile,
      (iterate_fishing_updates fishSuccessOutcome 2 initFishingState
          "common").fishing_patterns "common" = some q ∧
      q.success_rate = succIter 2 (0.7 : ℚ)) ∧
    (succIter 0 (0.7 : ℚ) < succIter 1 (0.7 : ℚ) ∧ succIter 3 (0.7 : ℚ) < 1 ∧
      ∃ N : ℕ, 1 - succIter N (0.7 : ℚ) < 0.01) := by
  have h1 := ema_success_rate_convergence.1 initFishingState "common"
    fishSuccessOutcome { success_rate := 0.7, avg_time := 5 } rfl rfl 2
  have h4 := ema_success_rate_convergence.2.2.2 (0.7 : ℚ) (by norm_num) (by norm_num)
  exact ⟨h1, h4.1 0, h4.2.1 3, h4.2.2 0.01 (by norm_num)⟩

/-- C6: `engage_combat` draws success against
`success_rate * 0.8 ^ consecutiveFailures`; for a fixed (positive, as every
stored rate is) success rate this adjusted probability strictly decreases
as the failure counter grows; one successful engagement resets the counter
to 0 so the adjusted probability equals the base success rate again, while
a failed engagement increments the counter; and the EMA update keeps
stored success rates positive. -/
theorem adjusted_success_probability :
    (∀ (st : CombatState) (enemy : GameObject) (r1 r2 r3 : ℚ),
      (engage_combat st enemy r1 r2 r3).1.success
        = decide (r1 < adjusted_success_rate st enemy.level)) ∧
    (∀ (st st' : CombatState) (level : ℤ),
      st'.combat_patterns = st.combat_patterns →
      st.consecutive_failures < st'.consecutive_failures →
      0 < ((st.combat_patterns level).getD defaultCombatProfile).success_rate →
      adjusted_success_rate st' level < adjusted_success_rate st level) ∧
    (∀ (st : CombatState) (enemy : GameObject) (r1 r2 r3 : ℚ),
      (engage_combat st enemy r1 r2 r3).1.success = true →
      ((engage_combat st enemy r1 r2 r3).2).consecutive_failures = 0 ∧
      adjusted_success_rate (engage_combat st enemy r1 r2 r3).2 enemy.level
        = ((st.combat_patterns enemy.level).getD defaultCombatProfile).success_rate) ∧
    (∀ (st : CombatState) (enemy : GameObject) (r1 r2 r3 : ℚ),
      (engage_combat st enemy r1 r2 r3).1.success = false →
      ((engage_combat st enemy r1 r2 r3).2).consecutive_failures
        = st.consecutive_failures + 1) ∧
    (∀ (st : CombatState) (level : ℤ) (o : CombatOutcome),
      0 < ((st.combat_patterns level).getD defaultCombatProfile).success_rate →
      ∃ q : CombatProfile,
        (update_combat_patterns st level o).combat_patterns level = some q ∧
        0 < q.success_rate) := by
  refine ⟨fun st enemy r1 r2 r3 => rfl, ?_, ?_, ?_, ?_⟩
  · intro st st' level hpat hcf hsr
    unfold adjusted_success_rate
    rw [hpat]
    exact mul_lt_mul_of_pos_left
      (pow_lt_pow_right_of_lt_one₀ (by norm_num) (by norm_num) hcf) hsr
  · intro st enemy r1 r2 r3 hs
    have hcf : ((engage_combat st enemy r1 r2 r3).2).consecutive_failures = 0 := by
      simp only [engage_combat] at hs ⊢
      rw [hs]
      rfl
    refine ⟨hcf, ?_⟩
    unfold adjusted_success_rate
    rw [hcf]
    have hpat : ((engage_combat st enemy r1 r2 r3).2).combat_patterns
        = st.combat_patterns := rfl
    rw [hpat, pow_zero, mul_one]
  · intro st enemy r1 r2 r3 hs
    simp only [engage_combat] at hs ⊢
    rw [hs]
    rfl
  · intro st level o hsr
    cases hpat : st.combat_patterns level with
    | none =>
      refine ⟨{ success_rate := defaultCombatProfile.success_rate * 0.9 +
                  (if o.success then 0.1 else 0)
                avg_damage_taken := defaultCombatProfile.avg_damage_taken * 0.9 +
                  o.damage_taken * 0.1
                avg_time := defaultCombatProfile.avg_time * 0.9 +
                  o.time_taken * 0.1 }, ?_, ?_⟩
      · simp [update_combat_patterns, hpat]
      · have hd : (0 : ℚ) < defaultCombatProfile.success_rate := by
          norm_num [defaultCombatProfile]
        split_ifs <;> nlinarith
    | some p =>
      refine ⟨{ success_rate := p.success_rate * 0.9 + (if o.success then 0.1 else 0)
                avg_damage_taken := p.avg_damage_taken * 0.9 + o.damage_taken * 0.1
                avg_time := p.avg_time * 0.9 + o.time_taken * 0.1 }, ?_, ?_⟩
      · simp [update_combat_patterns, hpat]
      · have hp : (0 : ℚ) < p.success_rate := by
          simpa [hpat] using hsr
        split_ifs <;> nlinarith

/-- Witness for C6, at a concrete engagement: an adjusted probability with
one prior failure is strictly below the base rate, and a successful
engagement (random draw 0.1 < 0.5) resets the counter. -/
theorem adjusted_success_probability_witness :
    (engage_combat initCombatState enemyLevel3 0.1 0 0).1.success
      = decide ((0.1 : ℚ) < adjusted_success_rate initCombatState enemyLevel3.level) ∧
    adjusted_success_rate { initCombatState with consecutive_failures := 1 } 3
      < adjusted_success_rate initCombatState 3 ∧
    ((engage_combat initCombatState enemyLevel3 0.1 0 0).2).consecutive_failures = 0 := by
  refine ⟨adjusted_success_probability.1 initCombatState enemyLevel3 0.1 0 0, ?_, ?_⟩
  · exact adjusted_success_probability.2.1 initCombatState
      { initCombatState with consecutive_failures := 1 } 3 rfl (by norm_num [initCombatState])
      (by norm_num [initCombatState, defaultCombatProfile])
  · exact (adjusted_success_probability.2.2.1 initCombatState enemyLevel3 0.1 0 0
      (by norm_num [engage_combat, adjusted_success_rate, initCombatState,
        defaultCombatProfile, enemyLevel3])).1

/-- The constructed transition table satisfies the invariant. -/
theorem transitionInvariant_init : TransitionInvariant initStateMachine := by
  intro s
  cases s <;>
    refine ⟨fun p hp => ?_, by norm_num [rowSum, initStateMachine, initTransitions]⟩ <;>
    fin_cases hp <;> norm_num

/-- Dividing every weight of a row by a constant divides its sum. -/
theorem rowSum_map_div (l : List (GState × ℚ)) (c : ℚ) :
    rowSum (l.map (fun p => (p.1, p.2 / c))) = rowSum l / c := by
  induction l with
  | nil => simp [rowSum]
  | cons a t ih =>
    simp only [rowSum, List.map_cons, List.sum_cons] at *
    rw [add_div, ih]

/-- A failure outcome leaves the static transition table untouched. -/
theorem update_transitions_failure (m : SMState) (s : GState) (o : SMOutcome)
    (hs : o.success.getD false = false) :
    (update_transitions m s o).transitions = m.transitions := by
  simp [update_transitions, hs]

/-- A success outcome rescales the row (self-transition × 1.1, others
× 0.9) and renormalizes it by the rescaled total. -/
theorem update_transitions_success (m : SMState) (s : GState) (o : SMOutcome)
    (hs : o.success.getD false = true) :
    (update_transitions m s o).transitions = setFun m.transitions s
      (((m.transitions s).map
          (fun p => (p.1, p.2 * (if p.1 = s then 1.1 else 0.9)))).map
        (fun p => (p.1, p.2 / rowSum ((m.transitions s).map
          (fun p => (p.1, p.2 * (if p.1 = s then 1.1 else 0.9))))))) := by
  simp [update_transitions, hs, rowSum]

/-- C1: the transition weights out of every state sum exactly to 1 (hence
within 1e-9 of 1.0) after construction and after every `update_transitions`
call — a success rescales and renormalizes the row, a failure leaves it
untouched — and the weights stay strictly positive throughout. -/
theorem transition_weights_invariant :
    TransitionInvariant initStateMachine ∧
    (∀ (m : SMState) (s : GState) (o : SMOutcome),
      TransitionInvariant m → TransitionInvariant (update_transitions m s o)) ∧
    (∀ (m : SMState) (s : GState) (o : SMOutcome),
      o.success.getD false = false →
      (update_transitions m s o).transitions = m.transitions) := by
  refine ⟨transitionInvariant_init, ?_, update_transitions_failure⟩
  intro m s o hm t
  rcases Bool.eq_false_or_eq_true (o.success.getD false) with hs | hs
  · rw [update_transitions_success m s o hs]
    unfold setFun
    by_cases ht : t = s
    · rw [if_pos ht]
      obtain ⟨hpos, hsum⟩ := hm s
      set row := m.transitions s with hrow
      set scaled := row.map (fun p => (p.1, p.2 * (if p.1 = s then 1.1 else 0.9)))
        with hscaled
      have hrow_ne : row ≠ [] := by
        intro h
        rw [h] at hsum
        simp [rowSum] at hsum
      have hscaled_pos : ∀ p ∈ scaled, 0 < p.2 := by
        intro p hp
        obtain ⟨u, hu, rfl⟩ := List.mem_map.mp hp
        have hu2 := hpos u hu
        dsimp only
        split_ifs <;> nlinarith
      have htotal : 0 < rowSum scaled := by
        unfold rowSum
        apply List.sum_pos
        · intro x hx
          obtain ⟨p, hp, rfl⟩ := List.mem_map.mp hx
          exact hscaled_pos p hp
        · simp only [ne_eq, List.map_eq_nil_iff]
          rw [hscaled]
          simpa using hrow_ne
      constructor
      · intro p hp
        obtain ⟨q, hq, rfl⟩ := List.mem_map.mp hp
        exact div_pos (hscaled_pos q hq) htotal
      · rw [rowSum_map_div]
        exact div_self (ne_of_gt htotal)
    · rw [if_neg ht]
      exact hm t
  · rw [update_transitions_failure m s o hs]
    exact hm t

/-- Witness for C1: after one successful update in `idle`, the `idle` row
of the initial machine still sums to 1. -/
theorem transition_weights_invariant_witness :
    rowSum ((update_transitions initStateMachine idle succOutcome).transitions idle) = 1 :=
  (transition_weights_invariant.2.1 initStateMachine idle succOutcome
    transitionInvariant_init idle).2

/-- With no health override (health ≥ 50), no forced-transition trigger and
a failure streak ≥ 3 in the current state, `get_next_state` takes the
failure-escape branch: it picks the `random.choice` element of the five
other states, resets the current state's failure counter and increments
its dwell timer. -/
theorem get_next_state_failure_escape (m : SMState) (current_state : GState)
    (env : Environment) (rng : SMRandom)
    (h1 : ¬ playerHealth env < 50)
    (h2 : check_forced_transition env = false)
    (h3 : 3 ≤ m.consecutive_failures current_state) :
    get_next_state m current_state env rng =
      ((statesList.filter (fun s => s ≠ current_state)).getD
          (rng.choiceIdx % (statesList.filter (fun s => s ≠ current_state)).length)
          current_state,
        { m with
            state_timers := setFun m.state_timers current_state
              (m.state_timers current_state + 1)
            consecutive_failures := setFun m.consecutive_failures current_state 0 }) := by
  unfold get_next_state
  rw [if_neg (fun hc => h1 hc.1)]
  simp only [h2, Bool.false_eq_true, if_false, ge_iff_le]
  rw [if_pos h3]

/-- C8: after three consecutive failure updates for a state the failure
counter reaches 3 (clause 1), and from such a state — with no health
override and no forced-transition trigger — `get_next_state` returns a
state different from the current one, drawn by `random.choice` from the
uniformly sampled list of the other five states (the filtered list has
exactly the 5 other states, without duplicates, and every one of them is
reached by some draw), and resets the state's failure counter to 0. -/
theorem failure_escape_switches_state :
    (∀ (m : SMState) (s : GState),
      (update_transitions (update_transitions (update_transitions m s failOutcome)
          s failOutcome) s failOutcome).consecutive_failures s
        = m.consecutive_failures s + 3) ∧
    (∀ (m : SMState) (current_state : GState) (env : Environment) (rng : SMRandom),
      ¬ playerHealth env < 50 →
      check_forced_transition env = false →
      3 ≤ m.consecutive_failures current_state →
      (get_next_state m current_state env rng).1 ≠ current_state ∧
      (get_next_state m current_state env rng).1 ∈ statesList ∧
      ((get_next_state m current_state env rng).2).consecutive_failures current_state
        = 0 ∧
      (statesList.filter (fun s => s ≠ current_state)).length = 5 ∧
      (statesList.filter (fun s => s ≠ current_state)).Nodup ∧
      (∀ s ∈ statesList, s ≠ current_state → ∃ j : ℕ, j < 5 ∧
        (get_next_state m current_state env ⟨j, rng.randVal⟩).1 = s)) := by
  constructor
  · intro m s
    simp [update_transitions, failOutcome, setFun]
  · intro m current_state env rng h1 h2 h3
    have hlen : (statesList.filter (fun s => s ≠ current_state)).length = 5 := by
      cases current_state <;> decide
    have hnodup : (statesList.filter (fun s => s ≠ current_state)).Nodup := by
      cases current_state <;> decide
    have hmem : ∀ rg : SMRandom, (get_next_state m current_state env rg).1 ∈
        statesList.filter (fun s => s ≠ current_state) := by
      intro rg
      rw [get_next_state_failure_escape m current_state env rg h1 h2 h3]
      have hlt : rg.choiceIdx % (statesList.filter
          (fun s => s ≠ current_state)).length <
          (statesList.filter (fun s => s ≠ current_state)).length := by
        refine Nat.mod_lt _ ?_
        rw [hlen]
        norm_num
      rw [List.getD_eq_getElem _ _ hlt]
      exact List.getElem_mem hlt
    have hmem1 := hmem rng
    rw [List.mem_filter] at hmem1
    refine ⟨by simpa using hmem1.2, hmem1.1, ?_, hlen, hnodup, ?_⟩
    · rw [get_next_state_failure_escape m current_state env rng h1 h2 h3]
      simp [setFun]
    · intro s hs hsc
      have hsmem : s ∈ statesList.filter (fun t => t ≠ current_state) :=
        List.mem_filter.mpr ⟨hs, by simpa using hsc⟩
      have hidx : (statesList.filter (fun t => t ≠ current_state)).indexOf s <
          (statesList.filter (fun t => t ≠ current_state)).length :=
        List.indexOf_lt_length.mpr hsmem
      refine ⟨(statesList.filter (fun t => t ≠ current_state)).indexOf s,
        by rw [← hlen]; exact hidx, ?_⟩
      rw [get_next_state_failure_escape m current_state env _ h1 h2 h3]
      simp only
      rw [Nat.mod_eq_of_lt hidx, List.getD_eq_getElem _ _ hidx,
        List.getElem_indexOf hidx]

/-- Witness for C8: three failure updates in `gathering` from the initial
machine yield failure counter 3, and the next `get_next_state` call at
health 80 with nothing nearby leaves `gathering` and resets the counter. -/
theorem failure_escape_switches_state_witness :
    (machineAfterThreeFailures.consecutive_failures gathering = 3) ∧
    (get_next_state machineAfterThreeFailures gathering env80 ⟨0, 0⟩).1 ≠ gathering ∧
    ((get_next_state machineAfterThreeFailures gathering env80 ⟨0, 0⟩).2).consecutive_failures
        gathering = 0 := by
  have h0 := failure_escape_switches_state.1 initStateMachine gathering
  have h := failure_escape_switches_state.2 machineAfterThreeFailures gathering env80
    ⟨0, 0⟩ (by norm_num [playerHealth, env80]) rfl
    (by
      show 3 ≤ machineAfterThreeFailures.consecutive_failures gathering
      unfold machineAfterThreeFailures
      rw [h0]
      simp [initStateMachine])
  refine ⟨?_, h.1, h.2.2.1⟩
  show machineAfterThreeFailures.consecutive_failures gathering = 3
  unfold machineAfterThreeFailures
  rw [h0]
  simp [initStateMachine]

/-- The bucket-filling loop appends to each cluster bucket exactly the
observations carrying that cluster label, after whatever the bucket
already held. -/
theorem fillBuckets_eq (pairs : List (ℕ × Observation))
    (pats : ℕ → List Observation) (k : ℕ) :
    fillBuckets pairs pats k
      = pats k ++ ((pairs.filter (fun p => p.1 = k)).map Prod.snd) := by
  induction pairs generalizing pats with
  | nil => simp [fillBuckets]
  | cons a t ih =>
    have hstep : fillBuckets (a :: t) pats
        = fillBuckets t (fun j => if j = a.1 then pats j ++ [a.2] else pats j) := rfl
    rw [hstep, ih]
    by_cases h : a.1 = k
    · simp [List.filter_cons, h, List.append_assoc]
    · simp [List.filter_cons, h, Ne.symm h]

/-- Splitting a labelled list over the five buckets preserves occurrence
counts when every label is below 5. -/
theorem count_fillBuckets (pairs : List (ℕ × Observation))
    (h5 : ∀ p ∈ pairs, p.1 < 5) (o : Observation) :
    (∑ k ∈ Finset.range 5,
        ((pairs.filter (fun p => p.1 = k)).map Prod.snd).count o)
      = (pairs.map Prod.snd).count o := by
  induction pairs with
  | nil => simp
  | cons a t ih =>
    have ha : a.1 < 5 := h5 a (List.mem_cons_self a t)
    have ht : ∀ p ∈ t, p.1 < 5 := fun p hp => h5 p (List.mem_cons_of_mem a hp)
    have hterm : ∀ k : ℕ,
        ((List.filter (fun p => p.1 = k) (a :: t)).map Prod.snd).count o
          = (if a.1 = k then (if a.2 == o then 1 else 0) else 0) +
            ((t.filter (fun p => p.1 = k)).map Prod.snd).count o := by
      intro k
      rw [List.filter_cons]
      by_cases h : a.1 = k
      · simp [h, List.count_cons, Nat.add_comm]
      · simp [h]
    rw [Finset.sum_congr rfl (fun k _ => hterm k), Finset.sum_add_distrib, ih ht,
      Finset.sum_ite_eq (Finset.range 5) a.1 (fun _ => if a.2 == o then 1 else 0),
      if_pos (Finset.mem_range.mpr ha), List.map_cons, List.count_cons,
      Nat.add_comm]

/-- Counterexample to C9: a reclassify pass does not replace prior cluster
membership. Starting from a cluster map holding `obsA` (placed by an
earlier pass) and a buffer of 50 copies of `obsB`, the pass leaves `obsA`
— which is not among the buffered observations — inside bucket 0, because
`_update_patterns` only appends to `self.patterns[cluster]`. -/
theorem reclassify_keeps_prior_membership :
    obsA ∉ priorRecognizerState.observations ∧
    obsA ∈ (update_patterns_pass (List.replicate 50 0) priorRecognizerState).patterns 0 := by
  constructor
  · intro h
    have heq := List.eq_of_mem_replicate h
    simp [obsA, obsB] at heq
  · have hlen : ¬ priorRecognizerState.observations.length < 50 := by
      simp [priorRecognizerState]
    unfold update_patterns_pass
    rw [if_neg hlen]
    show obsA ∈ fillBuckets _ priorRecognizerState.patterns 0
    rw [fillBuckets_eq]
    apply List.mem_append_left
    simp [priorRecognizerState]

/-- C9 amended: a reclassify pass with 49 or fewer buffered observations is
a no-op; with 50 or more it appends each buffered observation to the bucket
of its cluster label, accumulating on top of (not replacing) the membership
left by prior passes. Starting from an empty cluster map, with one label
per observation and all labels below 5, the five buckets then cover every
buffered observation exactly once. -/
theorem reclassify_pass_behaviour :
    (∀ (labels : List ℕ) (st : RecognizerState),
      st.observations.length ≤ 49 → update_patterns_pass labels st = st) ∧
    (∀ (labels : List ℕ) (st : RecognizerState),
      50 ≤ st.observations.length → ∀ k : ℕ,
      (update_patterns_pass labels st).patterns k
        = st.patterns k ++
          (((labels.zip st.observations).filter (fun p => p.1 = k)).map Prod.snd)) ∧
    (∀ (labels : List ℕ) (st : RecognizerState),
      50 ≤ st.observations.length →
      labels.length = st.observations.length →
      (∀ l ∈ labels, l < 5) →
      (∀ k : ℕ, st.patterns k = []) →
      ∀ o : Observation,
        (∑ k ∈ Finset.range 5,
            ((update_patterns_pass labels st).patterns k).count o)
          = st.observations.count o) := by
  have hchar : ∀ (labels : List ℕ) (st : RecognizerState),
      50 ≤ st.observations.length → ∀ k : ℕ,
      (update_patterns_pass labels st).patterns k
        = st.patterns k ++
          (((labels.zip st.observations).filter (fun p => p.1 = k)).map Prod.snd) := by
    intro labels st h k
    unfold update_patterns_pass
    rw [if_neg (Nat.not_lt.mpr h)]
    exact fillBuckets_eq _ _ k
  refine ⟨?_, hchar, ?_⟩
  · intro labels st h
    unfold update_patterns_pass
    rw [if_pos (Nat.lt_succ_of_le h)]
  · intro labels st h hlen h5 hempty o
    have h5' : ∀ p ∈ labels.zip st.observations, p.1 < 5 := by
      intro p hp
      exact h5 p.1 (List.of_mem_zip hp).1
    calc (∑ k ∈ Finset.range 5,
            ((update_patterns_pass labels st).patterns k).count o)
        = (∑ k ∈ Finset.range 5,
            (((labels.zip st.observations).filter (fun p => p.1 = k)).map
              Prod.snd).count o) := by
          refine Finset.sum_congr rfl fun k _ => ?_
          rw [hchar labels st h k, hempty k, List.nil_append]
      _ = ((labels.zip st.observations).map Prod.snd).count o :=
          count_fillBuckets _ h5' o
      _ = st.observations.count o := by
          rw [List.map_snd_zip labels st.observations (le_of_eq hlen.symm)]

/-- Witness for the amended C9: an empty buffer is a no-op; a full buffer
of 50 observations, all labelled 0, lands appended in bucket 0 and is
counted exactly once across the five buckets. -/
theorem reclassify_pass_behaviour_witness :
    update_patterns_pass [] initRecognizerState = initRecognizerState ∧
    (update_patterns_pass (List.replicate 50 0) freshRecognizerState).patterns 0
      = freshRecognizerState.patterns 0 ++
        ((((List.replicate 50 0).zip freshRecognizerState.observations).filter
          (fun p => p.1 = 0)).map Prod.snd) ∧
    (∑ k ∈ Finset.range 5,
        ((update_patterns_pass (List.replicate 50 0)
          freshRecognizerState).patterns k).count obsB)
      = freshRecognizerState.observations.count obsB := by
  refine ⟨reclassify_pass_behaviour.1 [] initRecognizerState
      (by simp [initRecognizerState]),
    reclassify_pass_behaviour.2.1 (List.replicate 50 0) freshRecognizerState
      (by simp [freshRecognizerState]) 0,
    reclassify_pass_behaviour.2.2 (List.replicate 50 0) freshRecognizerState
      (by simp [freshRecognizerState]) (by simp [freshRecognizerState])
      (fun l hl => by rw [List.eq_of_mem_replicate hl]; norm_num)
      (fun k => rfl) obsB⟩

end GameBot
